import Mathlib

/-!
Verification of the Cardia LLM service (src/services/main.py).

Strings are embedded as lists of Unicode characters (`PyStr`), matching
Python's code-point view of `str` (`len`, slicing, `in`, `strip`, `split`).
Each definition below is a direct translation of the corresponding Python
code in `src/services/main.py`; comments cite the source lines.
-/

namespace Cardia

/-- Python `str` modelled as a list of code points. -/
abbrev PyStr := List Char

/-- Python ASCII whitespace, the characters removed by `str.strip()`
(unicode whitespace beyond ASCII is not modelled; no input uses it). -/
def pyIsSpace (c : Char) : Bool :=
  c = ' ' || c = '\t' || c = '\n' || c = '\r' || c = '\x0b' || c = '\x0c'

/-- Python `s.strip()`. -/
def strip (s : PyStr) : PyStr :=
  ((s.dropWhile pyIsSpace).reverse.dropWhile pyIsSpace).reverse

/-- Python `s.lstrip(cs)`: drop leading characters belonging to `cs`. -/
def lstripSet (cs : List Char) (s : PyStr) : PyStr :=
  s.dropWhile (fun c => cs.contains c)

/-- Python `s.strip(cs)`: drop characters belonging to `cs` from both ends. -/
def stripSet (cs : List Char) (s : PyStr) : PyStr :=
  ((s.dropWhile (fun c => cs.contains c)).reverse.dropWhile (fun c => cs.contains c)).reverse

/-- Python `s.split(sep)` for a one-character separator. -/
def splitChar (sep : Char) : PyStr → List PyStr
  | [] => [[]]
  | c :: rest =>
    if c = sep then [] :: splitChar sep rest
    else
      match splitChar sep rest with
      | [] => [[c]]
      | h :: t => (c :: h) :: t

/-- Python `pat in s` (substring containment). -/
def containsSub (s pat : PyStr) : Bool :=
  match s with
  | [] => pat.isEmpty
  | _ :: rest => pat.isPrefixOf s || containsSub rest pat

/-- Python `s.lower()` (ASCII case folding; all keyword tables are ASCII). -/
def lowerStr (s : PyStr) : PyStr := s.map Char.toLower

/-- main.py line 68: `[l.strip() for l in text.split('\n') if l.strip()]`. -/
def linesOf (text : PyStr) : List PyStr :=
  ((splitChar '\n' text).map strip).filter (fun l => !l.isEmpty)

/-- The section cursor of the line scanner (main.py line 75). -/
inductive Section where
  | explanation
  | factors
  | recommendations
  | summary
deriving DecidableEq

/-- Mutable state of the single-pass scan in `parse_llm_output`. -/
structure ScanState where
  explanation : PyStr
  key_factors : List PyStr
  recommendations : List PyStr
  summary : PyStr
  currentSection : Section
deriving DecidableEq

/-- main.py line 81: factors section markers. -/
def factorsMarkers : List PyStr :=
  ["🔍".data, "KEY INSIGHTS".data, "Key Insights".data, "INSIGHTS:".data, "Insights:".data]

/-- main.py line 84: recommendations section markers. -/
def recsMarkers : List PyStr :=
  ["💡".data, "WELLNESS STRATEGY".data, "PERSONALIZED".data,
   "Recommendations:".data, "RECOMMENDATIONS".data]

/-- main.py line 87: summary markers (motivational symbols and the quote character). -/
def summaryMarkers : List PyStr :=
  ["🌱".data, "🎯".data, "💪".data, "\"".data]

/-- main.py line 100: substrings that disqualify a line from the explanation buffer. -/
def explListMarkers : List PyStr :=
  ["•".data, "✓".data, "-".data, "1.".data, "2.".data, "3.".data]

/-- main.py lines 105 and 116: characters removed by `line.lstrip('-*•✓123456789. ')`. -/
def bulletStripChars : List Char :=
  ['-', '*', '•', '✓', '1', '2', '3', '4', '5', '6', '7', '8', '9', '.', ' ']

/-- main.py line 90: characters removed by `line.strip('"\'')`. -/
def quoteApos : List Char := ['"', '\'']

/-- main.py lines 107-111: clinical keyword set gating the factors section. -/
def factorKeywords : List PyStr :=
  ["cholesterol".data, "blood pressure".data, "bp".data, "heart rate".data, "age".data,
   "mg/dl".data, "mmhg".data, "bpm".data, "angina".data, "risk".data, "indicates".data,
   "suggests".data, "combined".data, "relationship".data, "correlation".data,
   "physiological".data]

/-- main.py lines 118-122: action keyword set gating the recommendations section. -/
def actionKeywords : List PyStr :=
  ["reduce".data, "increase".data, "maintain".data, "monitor".data, "focus".data,
   "aim".data, "target".data, "consult".data, "track".data, "avoid".data,
   "include".data, "consider".data, "diet".data, "exercise".data, "lifestyle".data,
   "stress".data, "sodium".data, "physical".data]

/-- main.py line 134: broad medical terms used by the key-factors fallback re-scan. -/
def broadMedicalTerms : List PyStr :=
  ["cholesterol".data, "pressure".data, "heart".data, "risk".data, "age".data]

/-- main.py line 81: `any(marker in line for marker in [...])` for the factors markers. -/
def factorsMarkerB (line : PyStr) : Bool :=
  factorsMarkers.any (fun m => containsSub line m)

/-- main.py line 84: recommendations marker test. -/
def recsMarkerB (line : PyStr) : Bool :=
  recsMarkers.any (fun m => containsSub line m)

/-- main.py line 87: summary capture condition — the line contains one of the
summary markers, or starts and ends with a double quote. -/
def summaryCondB (line : PyStr) : Bool :=
  summaryMarkers.any (fun m => containsSub line m) ||
    (List.isPrefixOf "\"".data line && List.isSuffixOf "\"".data line)

/-- main.py line 94: divider and noise filtering. -/
def dividerB (line : PyStr) : Bool :=
  List.isPrefixOf "━".data line || line == ([] : PyStr) || line == [' '] ||
    decide (line.length < 5)

/-- One iteration of the scan loop, main.py lines 77-123. -/
def processLine (st : ScanState) (line : PyStr) : ScanState :=
  if factorsMarkerB line then
    { st with currentSection := Section.factors }
  else if recsMarkerB line then
    { st with currentSection := Section.recommendations }
  else if summaryCondB line then
    { st with currentSection := Section.summary, summary := stripSet quoteApos line }
  else if dividerB line then
    st
  else
    match st.currentSection with
    | Section.explanation =>
      if decide (st.explanation.length < 400) &&
          !(explListMarkers.any (fun m => containsSub line m)) then
        { st with explanation := st.explanation ++ line ++ [' '] }
      else st
    | Section.factors =>
      let cleaned := lstripSet bulletStripChars line
      if decide (15 < cleaned.length) &&
          factorKeywords.any (fun k => containsSub (lowerStr cleaned) k) then
        { st with key_factors := st.key_factors ++ [cleaned] }
      else st
    | Section.recommendations =>
      let cleaned := lstripSet bulletStripChars line
      if decide (15 < cleaned.length) &&
          actionKeywords.any (fun k => containsSub (lowerStr cleaned) k) then
        { st with recommendations := st.recommendations ++ [cleaned] }
      else st
    | Section.summary => st

/-- Initial scanner state, main.py lines 70-75. -/
def initState : ScanState :=
  { explanation := [], key_factors := [], recommendations := [], summary := [],
    currentSection := Section.explanation }

/-- The whole scan loop over the non-blank stripped lines of the raw text. -/
def scanText (text : PyStr) : ScanState :=
  (linesOf text).foldl processLine initState

/-- main.py line 129: canned explanation used when the raw text is empty. -/
def cannedExplanation : PyStr :=
  "Cardiovascular risk assessment completed with detailed parameter analysis.".data

/-- main.py lines 142-146: canned key-factor list. -/
def cannedFactors : List PyStr :=
  ["Multiple cardiovascular parameters analyzed for risk correlation".data,
   "Blood pressure and lipid profile impact arterial health".data,
   "Age-related factors influence baseline cardiovascular risk".data]

/-- main.py lines 149-153: canned recommendation list. -/
def cannedRecommendations : List PyStr :=
  ["Focus on heart-healthy Mediterranean-style diet with emphasis on fiber and omega-3s".data,
   "Maintain consistent aerobic exercise (150 minutes weekly) to improve cardiovascular efficiency".data,
   "Regular monitoring of key biomarkers (BP, lipid panel) for trend analysis".data]

/-- main.py line 158: canned summary sentence. -/
def cannedSummary : PyStr :=
  "Your cardiovascular health data provides actionable insights for risk management.".data

/-- main.py line 128: `[s.strip() for s in text.split('.') if len(s.strip()) > 30]`. -/
def explanationSentences (text : PyStr) : List PyStr :=
  ((splitChar '.' text).map strip).filter (fun s => decide (30 < s.length))

/-- main.py lines 126-129: the explanation fallback. -/
def fallbackExplanation (text expl : PyStr) : PyStr :=
  if expl == ([] : PyStr) || decide (expl.length < 50) then
    if text == ([] : PyStr) then cannedExplanation
    else
      match explanationSentences text with
      | s :: _ => s ++ ".".data
      | [] => text.take 300
  else expl

/-- main.py line 134: condition of the key-factors fallback re-scan. -/
def broadFactorCond (line : PyStr) : Bool :=
  broadMedicalTerms.any (fun t => containsSub (lowerStr line) t) && decide (20 < line.length)

/-- main.py lines 133-139: the key-factors fallback loop with de-duplication
and early exit at three entries. -/
def factorsFallbackLoop : List PyStr → List PyStr → List PyStr
  | [], acc => acc
  | line :: rest, acc =>
    if broadFactorCond line then
      let cleaned := lstripSet bulletStripChars line
      let acc2 := if acc.contains cleaned then acc else acc ++ [cleaned]
      if 3 ≤ acc2.length then acc2 else factorsFallbackLoop rest acc2
    else factorsFallbackLoop rest acc

/-- main.py lines 131-146: key-factors fallback — broader re-scan when fewer
than two entries were captured, then the canned list if still empty. -/
def factorsAfterFallback (lines : List PyStr) (kf : List PyStr) : List PyStr :=
  let kf2 := if kf == ([] : List PyStr) || decide (kf.length < 2) then
      factorsFallbackLoop lines kf
    else kf
  if kf2 == ([] : List PyStr) then cannedFactors else kf2

/-- main.py lines 148-153: recommendations fallback — when fewer than two
entries were captured the whole list is replaced by the canned list. -/
def recsAfterFallback (recs : List PyStr) : List PyStr :=
  if recs == ([] : List PyStr) || decide (recs.length < 2) then cannedRecommendations
  else recs

/-- main.py line 157: `[s.strip() for s in text.split('.') if len(s.strip()) > 20]`. -/
def summarySentences (text : PyStr) : List PyStr :=
  ((splitChar '.' text).map strip).filter (fun s => decide (20 < s.length))

/-- main.py lines 157-158: summary recomputation from the raw text. -/
def fallbackSummary (text : PyStr) : PyStr :=
  match (summarySentences text).getLast? with
  | some s => s ++ ".".data
  | none => cannedSummary

/-- main.py lines 155-158: the summary fallback is applied only when the
scanned summary is empty. -/
def summaryAfterFallback (text summ : PyStr) : PyStr :=
  if summ == ([] : PyStr) then fallbackSummary text else summ

/-- The structured result of `parse_llm_output` (main.py lines 162-167). -/
structure Parsed where
  explanation : PyStr
  key_factors : List PyStr
  recommendations : List PyStr
  summary : PyStr
deriving DecidableEq

/-- main.py lines 66-167: `parse_llm_output` — the scan, the four fallback
tiers, and the final bounds. -/
def parse_llm_output (text : PyStr) : Parsed :=
  { explanation := (strip (fallbackExplanation text (scanText text).explanation)).take 500
    key_factors := (factorsAfterFallback (linesOf text) (scanText text).key_factors).take 3
    recommendations := (recsAfterFallback (scanText text).recommendations).take 3
    summary := (strip (summaryAfterFallback text (scanText text).summary)).take 200 }

/-- Option-valued mirror of the explanation fallback in which the list indexing
`sentences[0]` is a fallible operation, exactly as in Python where it raises
unless guarded by the `if sentences` truthiness test (main.py line 129). -/
def fallbackExplanationO (text expl : PyStr) : Option PyStr :=
  if expl == ([] : PyStr) || decide (expl.length < 50) then
    if text == ([] : PyStr) then some cannedExplanation
    else if (explanationSentences text).isEmpty then some (text.take 300)
    else ((explanationSentences text).head?).map (fun s => s ++ ".".data)
  else some expl

/-- Option-valued mirror of the summary fallback: `sentences[-1]` is fallible
and guarded by the `if sentences` test (main.py line 158). -/
def fallbackSummaryO (text : PyStr) : Option PyStr :=
  if (summarySentences text).isEmpty then some cannedSummary
  else ((summarySentences text).getLast?).map (fun s => s ++ ".".data)

/-- Option-valued mirror of `parse_llm_output` in which every fallible
operation of the Python body is made explicit; `none` would correspond to an
uncaught exception inside the parser. -/
def parse_llm_outputO (text : PyStr) : Option Parsed :=
  (fallbackExplanationO text (scanText text).explanation).bind (fun expl =>
    (if (scanText text).summary == ([] : PyStr) then fallbackSummaryO text
     else some (scanText text).summary).map (fun summ =>
      { explanation := (strip expl).take 500
        key_factors := (factorsAfterFallback (linesOf text) (scanText text).key_factors).take 3
        recommendations := (recsAfterFallback (scanText text).recommendations).take 3
        summary := (strip summ).take 200 }))

/-- Python numeric value, kept as an unnormalised fraction. Float arithmetic
of the source is idealised as exact rational arithmetic; no claim exercises
rounding behaviour. -/
structure PyNum where
  num : Int
  den : Nat
deriving DecidableEq

/-- The literal `0` used as default for the risk value (main.py line 184). -/
def PyNum.zero : PyNum := ⟨0, 1⟩

/-- Multiplication by a natural constant (the `* 100` of main.py line 184). -/
def PyNum.mulNat (q : PyNum) (k : Nat) : PyNum := ⟨q.num * (k : Int), q.den⟩

/-- Digits of a one-decimal rendering of `t` tenths. -/
def tenthsDigits (t : Nat) : PyStr :=
  Nat.toDigits 10 (t / 10) ++ '.' :: Nat.toDigits 10 (t % 10)

/-- Python `f"{risk:.1f}"` idealised over exact fractions (truncating to one
decimal; only the value 0 is exercised by any claim). -/
def format1f (q : PyNum) : PyStr :=
  if q.num < 0 then '-' :: tenthsDigits ((-q.num).toNat * 10 / q.den)
  else tenthsDigits (q.num.toNat * 10 / q.den)

/-- Python `d.get(k, dflt)` on a numeric mapping. -/
def pyGetNum (d : List (PyStr × PyNum)) (k : PyStr) (dflt : PyNum) : PyNum :=
  match d with
  | [] => dflt
  | (k2, v) :: rest => if k2 == k then v else pyGetNum rest k dflt

/-- Python `d.get(k)` on the inputs mapping; values are modelled already
rendered by `str(...)` since the f-string stringifies them. -/
def pyGetStr (d : List (PyStr × PyStr)) (k : PyStr) : Option PyStr :=
  match d with
  | [] => none
  | (k2, v) :: rest => if k2 == k then some v else pyGetStr rest k

/-- Rendering of an optional value inside a Python f-string: a missing key
produced `None`, which prints as the string `None`. -/
def renderOpt (v : Option PyStr) : PyStr :=
  match v with
  | some s => s
  | none => "None".data

/-- The request payload of the explain operation (main.py lines 22-27). -/
structure ExplainRequest where
  prompt : Option PyStr := none
  inputs : Option (List (PyStr × PyStr)) := none
  prediction : Option (List (PyStr × PyNum)) := none
  include_recommendations : Bool := true
  max_length : Nat := 400

/-- main.py line 184: `request.prediction.get('risk', 0) * 100 if request.prediction else 0`. -/
def riskValue (req : ExplainRequest) : PyNum :=
  match req.prediction with
  | some p => (pyGetNum p ("risk".data) PyNum.zero).mulNat 100
  | none => PyNum.zero

/-- The fixed f-string template of main.py line 185. -/
def basicTemplate (riskStr age bp : PyStr) : PyStr :=
  "Explain heart risk of ".data ++ riskStr ++ "% for patient age ".data ++ age ++
    " with BP ".data ++ bp ++ ".".data

/-- main.py lines 184-185: the basic prompt built when no pre-built prompt is
supplied. Accessing `request.inputs.get(...)` when `inputs` is `None` raises
an `AttributeError` in Python, modelled as the error branch. -/
def buildBasicPrompt (req : ExplainRequest) : Except PyStr PyStr :=
  match req.inputs with
  | none => Except.error "'NoneType' object has no attribute 'get'".data
  | some ins =>
    Except.ok (basicTemplate (format1f (riskValue req))
      (renderOpt (pyGetStr ins ("age".data)))
      (renderOpt (pyGetStr ins ("restingBP".data))))

/-- main.py lines 179-185: `if request.prompt:` (truthiness: present and
non-empty) selects the pre-built prompt, otherwise the basic prompt is built. -/
def buildPromptE (req : ExplainRequest) : Except PyStr PyStr :=
  match req.prompt with
  | some p => if p == ([] : PyStr) then buildBasicPrompt req else Except.ok p
  | none => buildBasicPrompt req

/-- The fixed generation configuration of main.py lines 190-208. -/
structure GenConfig where
  max_tokens : Nat
  temperature : PyNum
  top_p : PyNum
  top_k : Nat
  repeat_penalty : PyNum
  stop : List PyStr

/-- main.py lines 192-207: the constant sampling parameters and stop sequences. -/
def genConfig : GenConfig :=
  { max_tokens := 450
    temperature := ⟨8, 10⟩
    top_p := ⟨92, 100⟩
    top_k := 50
    repeat_penalty := ⟨115, 100⟩
    stop := ["PATIENT DATA:".data, "CONTEXT:".data, "YOUR ROLE:".data, "━━━".data,
             "###".data, "\n\n\n\n".data, "Note:".data, "Disclaimer:".data] }

/-- An HTTP error response (FastAPI `HTTPException`). -/
structure HTTPError where
  status_code : Nat
  detail : PyStr
deriving DecidableEq

/-- The response payload (main.py lines 29-35). Wall-clock `processing_time`
is not modelled (real time lies outside the embedding). -/
structure ExplainResponse where
  explanation : PyStr
  key_factors : List PyStr
  recommendations : List PyStr
  summary : PyStr
  model_used : PyStr

/-- main.py lines 169-230: the explain endpoint. The opaque generation
backend is a parameter `gen`; any exception inside the try block (prompt
building or generation) is surfaced as a 500 error carrying the message. -/
def explain (model_loaded : Bool) (gen : PyStr → GenConfig → Except PyStr PyStr)
    (req : ExplainRequest) : Except HTTPError ExplainResponse :=
  if !model_loaded then Except.error ⟨503, "Model not loaded".data⟩
  else
    match buildPromptE req with
    | Except.error e =>
      Except.error ⟨500, "Failed to generate explanation: ".data ++ e⟩
    | Except.ok prompt =>
      match gen prompt genConfig with
      | Except.error e =>
        Except.error ⟨500, "Failed to generate explanation: ".data ++ e⟩
      | Except.ok gtext =>
        let parsed := parse_llm_output (strip gtext)
        Except.ok { explanation := parsed.explanation
                    key_factors := parsed.key_factors
                    recommendations := parsed.recommendations
                    summary := parsed.summary
                    model_used := "deepseek-coder-1.3b-Q4_K_M-phase4.1".data }

/-- The scenario raw text of spec section 8 (factors header, one factor line,
recommendations header, one recommendation line, quoted summary). -/
def ex3 : PyStr :=
  ("🔍 KEY INSIGHTS\n- Elevated cholesterol indicates arterial risk\n💡 Recommendations:\n- Reduce sodium intake and monitor blood pressure\n\"Stay heart healthy\"").data

/-- A raw text consisting of a single factors-marker line that also contains
a broad medical term. -/
def c5line : PyStr := ("🔍 KEY INSIGHTS: cholesterol is high today").data

/-- A plain sentence containing a dash in the middle of the line. -/
def c7line : PyStr := ("The patient risk level is very high - more than normal").data

/-- A plain sentence free of every marker and list-item substring. -/
def c7okLine : PyStr := ("Elevated overall readings today").data

/-- A scan state that has already captured a summary. -/
def c8prev : ScanState :=
  { explanation := [], key_factors := [], recommendations := [],
    summary := ("An earlier summary").data, currentSection := Section.explanation }

/-- A raw text whose scan captures exactly one key factor and no
recommendation. -/
def c10ex : PyStr :=
  ("🔍 KEY INSIGHTS\n- Elevated cholesterol indicates arterial risk").data

/-- Modelled from the spec: the claim of C7 reads the list-item test as the
line STARTING with a bullet glyph, dash, checkmark or numbered-list prefix;
the code instead tests substring containment anywhere in the line. -/
def startsWithListItem (line : PyStr) : Bool :=
  List.isPrefixOf "•".data line || List.isPrefixOf "✓".data line ||
    List.isPrefixOf "-".data line || List.isPrefixOf "1.".data line ||
    List.isPrefixOf "2.".data line || List.isPrefixOf "3.".data line

/-- C1: the fallback guarantee fails on whitespace-only raw text: a single
space yields an empty explanation (the `if text` truthiness test accepts the
blank string and the final strip empties it), while the empty string yields
the canned explanation and summary exactly as the claim expects. -/
theorem c1_blank_text_empty_explanation :
    (parse_llm_output (" ".data)).explanation = ([] : PyStr) ∧
    (parse_llm_output ([] : PyStr)).explanation = cannedExplanation ∧
    (parse_llm_output ([] : PyStr)).summary = cannedSummary := by
  refine ⟨by decide, by decide, by decide⟩

/-- C2: for every raw text the parsed output satisfies the final bounds:
explanation at most 500 characters, summary at most 200 characters, and at
most three key factors and three recommendations. -/
theorem c2_output_bounds (text : PyStr) :
    (parse_llm_output text).explanation.length ≤ 500 ∧
    (parse_llm_output text).summary.length ≤ 200 ∧
    (parse_llm_output text).key_factors.length ≤ 3 ∧
    (parse_llm_output text).recommendations.length ≤ 3 := by
  unfold parse_llm_output
  refine ⟨?_, ?_, ?_, ?_⟩ <;> simp [List.length_take]

/-- C3 counterexample: for the scenario raw text the returned recommendations
are exactly the canned three-item list; the cleaned sodium/monitoring line is
not among them (it is captured by the key-factors fallback instead). -/
theorem c3_counterexample :
    (parse_llm_output ex3).recommendations = cannedRecommendations ∧
    ((parse_llm_output ex3).recommendations.contains
      ("Reduce sodium intake and monitor blood pressure".data)) = false := by
  refine ⟨by decide, by decide⟩

/-- C3 (amended): whenever the primary scan captures fewer than two
recommendations, the extractor discards them and substitutes the fixed
three-item canned list — there is no broader re-scan tier for
recommendations, unlike for key factors. -/
theorem c3_recs_fallback_is_canned (text : PyStr)
    (h : (scanText text).recommendations.length < 2) :
    (parse_llm_output text).recommendations = cannedRecommendations := by
  unfold parse_llm_output recsAfterFallback
  simp [h]
  decide

/-- C3 witness: the amended fallback behaviour at the scenario raw text. -/
theorem c3_recs_fallback_witness :
    (parse_llm_output ex3).recommendations = cannedRecommendations :=
  c3_recs_fallback_is_canned ex3 (by decide)

/-- The last element of a non-empty list exists. -/
theorem getLast_of_cons {α : Type} (a : α) (as : List α) :
    ∃ x, (a :: as).getLast? = some x := by
  induction as generalizing a with
  | nil => exact ⟨a, rfl⟩
  | cons b bs ih =>
    obtain ⟨x, hx⟩ := ih b
    exact ⟨x, by rw [List.getLast?_cons_cons]; exact hx⟩

/-- The Option-valued explanation fallback always succeeds with the value of
the pure fallback. -/
theorem fallbackExplanationO_eq (text expl : PyStr) :
    fallbackExplanationO text expl = some (fallbackExplanation text expl) := by
  unfold fallbackExplanationO fallbackExplanation
  split
  · split
    · rfl
    · cases hs : explanationSentences text <;> simp [hs]
  · rfl

/-- The Option-valued summary fallback always succeeds with the value of the
pure fallback. -/
theorem fallbackSummaryO_eq (text : PyStr) :
    fallbackSummaryO text = some (fallbackSummary text) := by
  unfold fallbackSummaryO fallbackSummary
  cases hs : summarySentences text with
  | nil => simp [hs]
  | cons a as =>
    obtain ⟨x, hx⟩ := getLast_of_cons a as
    simp [hs, hx]

/-- C4: `parse_llm_output` is total and deterministic: the Option-valued
mirror, in which every fallible indexing of the Python body is explicit,
always succeeds and returns exactly the value of the pure function. -/
theorem c4_total_deterministic (text : PyStr) :
    parse_llm_outputO text = some (parse_llm_output text) := by
  unfold parse_llm_outputO parse_llm_output summaryAfterFallback
  rw [fallbackExplanationO_eq]
  by_cases h : ((scanText text).summary == ([] : PyStr)) = true
  · simp [h, fallbackSummaryO_eq]
  · simp [h]

/-- C5 counterexample: a line matching a factors marker reappears in the
output because the fallback tiers re-scan the raw lines: with the marker line
as the entire raw text it becomes the sole key factor, and with a final
period appended it becomes the explanation. -/
theorem c5_counterexample :
    factorsMarkerB c5line = true ∧
    (parse_llm_output c5line).key_factors = [c5line] ∧
    (parse_llm_output c5line).explanation = c5line ++ ".".data := by
  refine ⟨by decide, by decide, by decide⟩

/-- C5 (amended): a factors-marker line switches the section cursor to
Factors from any scan state, even mid-explanation, and the primary scan never
accumulates its text — the state is otherwise unchanged. (The fallback tiers
may still re-read such a line into the output, as the counterexample shows.) -/
theorem c5_factors_marker_switch (st : ScanState) (line : PyStr)
    (h : factorsMarkerB line = true) :
    processLine st line = { st with currentSection := Section.factors } := by
  unfold processLine
  simp [h]

/-- C5 witness: the cursor switch evaluated at the magnifier marker. -/
theorem c5_factors_marker_switch_witness :
    processLine initState ("🔍".data) =
      { initState with currentSection := Section.factors } :=
  c5_factors_marker_switch initState ("🔍".data) (by decide)

/-- C6 counterexample: with no prompt, no inputs and no prediction, prompt
building raises an AttributeError (`request.inputs` is `None`), surfaced by
the endpoint as a 500 failure — it does not render the missing inputs as
absent. -/
theorem c6_counterexample :
    buildPromptE { prompt := none, inputs := none, prediction := none } =
      Except.error ("'NoneType' object has no attribute 'get'".data) ∧
    explain true (fun p _ => Except.ok p)
        { prompt := none, inputs := none, prediction := none } =
      Except.error ⟨500,
        ("Failed to generate explanation: 'NoneType' object has no attribute 'get'").data⟩ := by
  refine ⟨rfl, rfl⟩

/-- C6 (amended): with no prompt and no prediction the risk defaults to 0 and
renders as 0.0, and parameters missing from a present inputs mapping render
as None; but when the inputs mapping itself is absent, prompt building raises
an AttributeError instead of rendering absent values. -/
theorem c6_defaults_with_inputs (ins : List (PyStr × PyStr)) :
    riskValue { prompt := none, inputs := some ins, prediction := none } = PyNum.zero ∧
    buildPromptE { prompt := none, inputs := some ins, prediction := none } =
      Except.ok (basicTemplate ("0.0".data)
        (renderOpt (pyGetStr ins ("age".data)))
        (renderOpt (pyGetStr ins ("restingBP".data)))) ∧
    renderOpt (none : Option PyStr) = "None".data := by
  have hf : format1f PyNum.zero = "0.0".data := by decide
  refine ⟨rfl, ?_, rfl⟩
  show Except.ok (basicTemplate
      (format1f (riskValue { prompt := none, inputs := some ins, prediction := none }))
      (renderOpt (pyGetStr ins ("age".data)))
      (renderOpt (pyGetStr ins ("restingBP".data)))) = _
  rw [show riskValue { prompt := none, inputs := some ins, prediction := none } = PyNum.zero
      from rfl, hf]

/-- C7 counterexample: this line begins with no list-item prefix and the
buffer is empty (so under 400 characters), hence the claim predicts it is
appended to the explanation buffer; the code drops it because it contains a
dash anywhere in the line. -/
theorem c7_counterexample :
    startsWithListItem c7line = false ∧
    initState.explanation.length < 400 ∧
    initState.currentSection = Section.explanation ∧
    (processLine initState c7line).explanation = ([] : PyStr) ∧
    initState.explanation ++ c7line ++ [' '] ≠ ([] : PyStr) := by
  refine ⟨by decide, by decide, by decide, by decide, by decide⟩

/-- C7 (amended): a line reaching the Explanation accumulation (no section
marker matched, no summary capture, not divider-filtered) is appended with a
trailing space iff the buffer is under 400 characters and the line does not
CONTAIN any of the bullet, checkmark, dash, or numbered-list substrings
anywhere; otherwise the state is unchanged (the line is dropped, not
deferred). -/
theorem c7_explanation_append_iff (st : ScanState) (line : PyStr)
    (h1 : factorsMarkerB line = false) (h2 : recsMarkerB line = false)
    (h3 : summaryCondB line = false) (h4 : dividerB line = false)
    (h5 : st.currentSection = Section.explanation) :
    processLine st line =
      if decide (st.explanation.length < 400) &&
          !(explListMarkers.any (fun m => containsSub line m)) then
        { st with explanation := st.explanation ++ line ++ [' '] }
      else st := by
  unfold processLine
  simp [h1, h2, h3, h4, h5]

/-- C7 witness: the appending branch evaluated at the empty buffer and a
marker-free line. -/
theorem c7_explanation_append_iff_witness :
    processLine initState c7okLine =
      if decide (initState.explanation.length < 400) &&
          !(explListMarkers.any (fun m => containsSub c7okLine m)) then
        { initState with explanation := initState.explanation ++ c7okLine ++ [' '] }
      else initState :=
  c7_explanation_append_iff initState c7okLine (by decide) (by decide) (by decide)
    (by decide) (by decide)

/-- C8: for a scanned line not consumed by the factors or recommendations
marker branches, summary capture happens exactly when the line contains a
summary marker (a motivational symbol or a quote character) or is wrapped in
double quotes; capture strips surrounding quote characters and overwrites any
earlier summary unconditionally (last wins), while a non-qualifying line
leaves the summary unchanged. -/
theorem c8_summary_capture_iff (st : ScanState) (line : PyStr)
    (h1 : factorsMarkerB line = false) (h2 : recsMarkerB line = false) :
    (summaryCondB line = true →
      processLine st line =
        { st with currentSection := Section.summary,
                  summary := stripSet quoteApos line }) ∧
    (summaryCondB line = false → (processLine st line).summary = st.summary) := by
  constructor
  · intro h3
    unfold processLine
    simp [h1, h2, h3]
  · intro h3
    unfold processLine
    simp only [h1, h2, h3, Bool.false_eq_true, if_false]
    split
    · rfl
    · split <;> first | rfl | (split <;> rfl)

/-- C8 witness: a quoted line replaces a previously captured summary. -/
theorem c8_summary_capture_witness :
    processLine c8prev (("\"Stay heart healthy\"").data) =
      { c8prev with
          currentSection := Section.summary
          summary := stripSet quoteApos (("\"Stay heart healthy\"").data) } :=
  (c8_summary_capture_iff c8prev (("\"Stay heart healthy\"").data)
    (by decide) (by decide)).1 (by decide)

/-- C9: when the generation backend is not initialized the explain operation
rejects with a 503 immediately; the result depends neither on the generator
nor on the request, so no prompt is built and the generator is never
invoked. -/
theorem c9_backend_unavailable (gen : PyStr → GenConfig → Except PyStr PyStr)
    (req : ExplainRequest) :
    explain false gen req = Except.error ⟨503, "Model not loaded".data⟩ := rfl

/-- The bound and truncated recommendation list has two or three entries. -/
theorem recsAfterFallback_take_length (recs : List PyStr) :
    ((recsAfterFallback recs).take 3).length = 2 ∨
      ((recsAfterFallback recs).take 3).length = 3 := by
  unfold recsAfterFallback
  split
  · right; decide
  · rename_i hcond
    have h2 : 2 ≤ recs.length := by
      by_contra hlt
      push_neg at hlt
      exact hcond (by simp [hlt])
    rw [List.length_take]
    omega

/-- C10: the returned recommendations list always has exactly two or three
entries — a single captured recommendation is discarded and wholly replaced
by the canned three-item list — whereas key_factors can come back with a
single entry, as the concrete input shows. -/
theorem c10_recs_two_or_three :
    (∀ text : PyStr, (parse_llm_output text).recommendations.length = 2 ∨
      (parse_llm_output text).recommendations.length = 3) ∧
    (parse_llm_output c10ex).key_factors.length = 1 := by
  constructor
  · intro text
    exact recsAfterFallback_take_length (scanText text).recommendations
  · decide

end Cardia
